import Mathlib

/-!
Verification of the autosave, load, import and export paths of the
document editor (src/src/components/DocumentList.tsx).  The editing
session is modelled as an event-driven state machine: an `edit` event is
one `onUpdate` call from the rich text surface (which calls
`debouncedSave`), a `fire` event is one `setTimeout` callback firing,
and a `complete` event is the resolution of one `blink.db.documents.update`
call.  Guards are read at the instant an event's synchronous portion
runs, matching the single-threaded cooperative scheduling of the source.
-/

namespace DocxClone

/-- A persisted document record, as stored by the content store
(interface `DocumentData` in the source).  Timestamps are modelled as
natural numbers standing for the instants at which `new Date()` was
evaluated. -/
structure DocRec where
  id : String
  title : String
  content : String
  owner_user_id : String
  created_at : Nat
  updated_at : Nat
deriving Repr, DecidableEq

/-- A user-facing transient notification produced by `toast({...})`.
`destructive` is true when the source passes `variant: "destructive"`. -/
structure Toast where
  title : String
  description : String
  destructive : Bool
deriving Repr, DecidableEq

/-- JavaScript truthiness coercion `content || ''` applied by
`saveDocument` to its optional `content` argument: an absent argument or
the empty string both coerce to the empty string, any other string is
kept. -/
def jsOrEmpty : Option String → String
  | none => ""
  | some s => if s = "" then "" else s

/-- One armed `setTimeout` created by a `debouncedSave(content)` call:
it fires 1000 ms after the edit, carrying that edit's content.  `seq`
numbers the edit events of the session in order. -/
structure Timer where
  seq : Nat
  fireAt : Nat
  content : String
deriving Repr, DecidableEq

/-- One write call to `blink.db.documents.update` that has begun:
`content` is the snapshot sent, `startedAt` the instant the call was
issued (when `new Date().toISOString()` was evaluated for `updated_at`),
`seq` the edit event that scheduled it. -/
structure Flight where
  seq : Nat
  startedAt : Nat
  content : String
deriving Repr, DecidableEq

/-- State of one `DocumentEditor` session.  `doc` is the persisted store
record mirrored by the session (none until a load succeeds), `saving`
the `saving` React state, `editorContent` the latest content produced by
the rich text surface, `armed` the pending timeouts, `inflight` the
outstanding update calls (a list, so that single-flight is a theorem and
not a typing artifact), `begun` and `completedOk` the histories of
started and successfully completed writes in order, `toasts` the
notifications shown so far. -/
structure EditorState where
  doc : Option DocRec
  saving : Bool
  editorContent : String
  nextSeq : Nat
  armed : List Timer
  inflight : List Flight
  begun : List Flight
  completedOk : List Flight
  toasts : List Toast
deriving Repr, DecidableEq

/-- Session events: `edit t c` is an `onUpdate` call at instant `t` with
serialized content `c`; `fire t j` is the timeout armed by edit `j`
firing at instant `t`; `complete t ok` is the oldest outstanding update
call resolving at instant `t`, successfully when `ok`. -/
inductive Ev where
  | edit (t : Nat) (c : String)
  | fire (t : Nat) (j : Nat)
  | complete (t : Nat) (ok : Bool)
deriving Repr, DecidableEq

/-- The toast shown by the catch branch of `saveDocument`. -/
def saveErrorToast : Toast :=
  { title := "Error", description := "Failed to save document", destructive := true }

/-- One step of the session.

`edit`: `onUpdate` records the new content and `debouncedSave` arms a
fresh 1000 ms timeout carrying it; the cancel closure returned by
`debouncedSave` is never invoked in the source, so no existing timer is
cleared.

`fire`: the timeout is consumed; its callback runs `saveDocument` only
when a document is loaded and no save is outstanding (`document &&
!saving`, re-checked by `saveDocument` itself), in which case the update
call begins with the timer's content coerced through `content || ''`.

`complete`: the oldest outstanding update resolves; on success the store
record receives the fields that were sent (`content`, `updated_at`), on
failure exactly one destructive toast is shown; `finally` clears
`saving` either way. -/
def step (s : EditorState) : Ev → EditorState
  | .edit t c =>
      { s with
        editorContent := c
        nextSeq := s.nextSeq + 1
        armed := s.armed ++ [{ seq := s.nextSeq, fireAt := t + 1000, content := c }] }
  | .fire t j =>
      match s.armed.find? (fun tm => tm.seq == j) with
      | none => s
      | some tm =>
          let s' := { s with armed := s.armed.filter (fun tm => tm.seq != j) }
          if s.doc.isSome && !s.saving then
            let f : Flight := { seq := tm.seq, startedAt := t, content := jsOrEmpty (some tm.content) }
            { s' with
              saving := true
              inflight := s'.inflight ++ [f]
              begun := s'.begun ++ [f] }
          else s'
  | .complete _t ok =>
      match s.inflight with
      | [] => s
      | f :: rest =>
          if ok then
            { s with
              saving := false
              inflight := rest
              completedOk := s.completedOk ++ [f]
              doc := s.doc.map (fun d => { d with content := f.content, updated_at := f.startedAt }) }
          else
            { s with
              saving := false
              inflight := rest
              toasts := s.toasts ++ [saveErrorToast] }

/-- Run a session from a state through a list of events. -/
def run (s : EditorState) (es : List Ev) : EditorState :=
  es.foldl step s

/-- Session state right after a successful load: the store record is
mirrored and the editor is initialized with `document.content || ''`. -/
def initSession (d : DocRec) : EditorState :=
  { doc := some d
    saving := false
    editorContent := jsOrEmpty (some d.content)
    nextSeq := 0
    armed := []
    inflight := []
    begun := []
    completedOk := []
    toasts := [] }

/-- A concrete loaded document used by the evaluation theorems. -/
def demoDoc : DocRec :=
  { id := "doc_1", title := "Untitled Document", content := "",
    owner_user_id := "user_1", created_at := 0, updated_at := 0 }

/-- Two edits 500 ms apart (one debounce window), each write resolving
quickly: both armed timeouts fire. -/
def burstTrace : List Ev :=
  [Ev.edit 0 "a", Ev.edit 500 "ab", Ev.fire 1000 0, Ev.complete 1100 true,
   Ev.fire 1500 1, Ev.complete 1600 true]

/-- C1: within one 1000 ms debounce window (edits at 0 ms and 500 ms),
the source issues two writes, not one, and the first write carries the
stale content of the first edit, because `debouncedSave` arms an
independent timeout per call and the cancel closure it returns is never
invoked. -/
theorem c1_burst_two_writes :
    (run (initSession demoDoc) burstTrace).completedOk.map Flight.content = ["a", "ab"] ∧
    ((run (initSession demoDoc) burstTrace).completedOk.map Flight.content).length ≠ 1 := by
  constructor
  · rfl
  · decide

/-- An edit whose timeout fires while a write is still in flight: the
callback's `document && !saving` guard skips the save and nothing ever
retries it. -/
def inflightDropTrace : List Ev :=
  [Ev.edit 0 "a", Ev.fire 1000 0, Ev.edit 1100 "ab", Ev.fire 2100 1,
   Ev.complete 2500 true]

/-- C3: an edit arriving while a write is in flight is silently dropped
by the source.  Content `ab` is produced at 1100 ms while the write of
`a` is outstanding (1000 ms to 2500 ms); the timeout of `ab` fires at
2100 ms, finds `saving` true and skips the save.  After the in-flight
write resolves no follow-up write exists: every timeout has fired,
nothing is in flight, and `ab` was never persisted. -/
theorem c3_edit_during_write_dropped :
    (run (initSession demoDoc) inflightDropTrace).completedOk.map Flight.content = ["a"] ∧
    (run (initSession demoDoc) inflightDropTrace).editorContent = "ab" ∧
    (run (initSession demoDoc) inflightDropTrace).armed = [] ∧
    (run (initSession demoDoc) inflightDropTrace).inflight = [] ∧
    "ab" ∉ (run (initSession demoDoc) inflightDropTrace).completedOk.map Flight.content := by
  refine ⟨rfl, rfl, rfl, rfl, ?_⟩
  decide

/-- A session that quiesces: the last content the user produced is `xy`,
but its timeout fires during the slow write of `x` and is skipped; no
further events ever occur. -/
def quiesceTrace : List Ev :=
  [Ev.edit 0 "x", Ev.fire 1000 0, Ev.edit 1200 "xy", Ev.fire 2200 1,
   Ev.complete 3000 true]

/-- C5: after the session quiesces (every timeout has fired, no write in
flight, no further edits), the last write to complete carries `x` while
the last content the user produced is `xy`: the stored state never
converges to the produced state, with no bound at all. -/
theorem c5_quiesce_not_consistent :
    ((run (initSession demoDoc) quiesceTrace).completedOk.map Flight.content).getLast? = some "x" ∧
    (run (initSession demoDoc) quiesceTrace).editorContent = "xy" ∧
    (run (initSession demoDoc) quiesceTrace).armed = [] ∧
    (run (initSession demoDoc) quiesceTrace).inflight = [] ∧
    ((run (initSession demoDoc) quiesceTrace).completedOk.map Flight.content).getLast? ≠
      some (run (initSession demoDoc) quiesceTrace).editorContent := by
  refine ⟨rfl, rfl, rfl, rfl, ?_⟩
  decide

/-- Edit-sequence numbers of the `fire` events of a trace, in trace
order.  In the source, timeouts fire in the order of their 1000 ms
deadlines, which is the order of the edits that armed them, so a
schedule realizable by the JavaScript event loop fires strictly
increasing sequence numbers. -/
def fireSeqs : List Ev → List Nat
  | [] => []
  | Ev.fire _ j :: r => j :: fireSeqs r
  | Ev.edit _ _ :: r => fireSeqs r
  | Ev.complete _ _ :: r => fireSeqs r

theorem begun_step_edit (s : EditorState) (t : Nat) (c : String) :
    (step s (Ev.edit t c)).begun = s.begun := rfl

theorem begun_step_complete (s : EditorState) (t : Nat) (ok : Bool) :
    (step s (Ev.complete t ok)).begun = s.begun := by
  simp only [step]
  split
  · rfl
  · split <;> rfl

theorem begun_step_fire (s : EditorState) (t j : Nat) :
    (step s (Ev.fire t j)).begun = s.begun ∨
    ∃ tm, s.armed.find? (fun x => x.seq == j) = some tm ∧
      (step s (Ev.fire t j)).begun =
        s.begun ++ [{ seq := j, startedAt := t, content := jsOrEmpty (some tm.content) }] := by
  simp only [step]
  split
  · exact Or.inl rfl
  · rename_i tm hf
    have hseq : tm.seq = j := by simpa using List.find?_some hf
    by_cases hg : (s.doc.isSome && !s.saving) = true
    · refine Or.inr ⟨tm, hf, ?_⟩
      rw [if_pos hg]
      simp [hseq]
    · rw [if_neg hg]
      exact Or.inl rfl

/-- Along any trace whose `fire` events occur in increasing edit order
(as the JavaScript event loop guarantees), the writes that begin carry
strictly increasing edit-sequence numbers: every write begun after a
given one sends the snapshot of a strictly later edit. -/
theorem begun_pairwise_aux (es : List Ev) (s : EditorState)
    (h : List.Pairwise (· < ·) (s.begun.map Flight.seq ++ fireSeqs es)) :
    List.Pairwise (· < ·) ((run s es).begun.map Flight.seq) := by
  induction es generalizing s with
  | nil => simpa [run, fireSeqs] using h
  | cons e r ih =>
      have hrun : run s (e :: r) = run (step s e) r := rfl
      rw [hrun]
      cases e with
      | edit t c =>
          apply ih
          rw [begun_step_edit]
          simpa [fireSeqs] using h
      | complete t ok =>
          apply ih
          rw [begun_step_complete]
          simpa [fireSeqs] using h
      | fire t j =>
          simp only [fireSeqs] at h
          apply ih
          rcases begun_step_fire s t j with hb | ⟨tm, hf, hb⟩
          · rw [hb]
            exact List.Pairwise.sublist
              ((List.sublist_cons_self j (fireSeqs r)).append_left _) h
          · rw [hb]
            simp only [List.map_append, List.map_cons, List.map_nil]
            rw [← List.append_cons]
            exact h

/-- C4: when an update call fails, the catch branch of `saveDocument`
shows exactly one destructive toast and leaves everything else intact:
the editor still holds the latest content, the mirrored store record is
unchanged, and every armed timeout survives; and since writes begin with
strictly increasing edit-sequence numbers along any event-loop-
realizable trace, the next flush (the next timeout that fires outside a
write) sends the snapshot of an edit at least as new as the failed one,
so a single failure-then-retry cycle loses no data. -/
theorem c4_failed_write_retains_content (s : EditorState) (t : Nat) (f : Flight)
    (rest : List Flight) (hif : s.inflight = f :: rest)
    (d : DocRec) (es : List Ev)
    (hmono : List.Pairwise (· < ·) (fireSeqs es)) :
    (step s (Ev.complete t false)).toasts = s.toasts ++ [saveErrorToast] ∧
    (step s (Ev.complete t false)).editorContent = s.editorContent ∧
    (step s (Ev.complete t false)).doc = s.doc ∧
    (step s (Ev.complete t false)).armed = s.armed ∧
    List.Pairwise (· < ·) ((run (initSession d) es).begun.map Flight.seq) := by
  refine ⟨?_, ?_, ?_, ?_, ?_⟩
  · simp [step, hif]
  · simp [step, hif]
  · simp [step, hif]
  · simp [step, hif]
  · exact begun_pairwise_aux es (initSession d) (by simpa [initSession] using hmono)

/-- A concrete session with one write in flight, used to instantiate
the C4 theorem. -/
def c4wState : EditorState := run (initSession demoDoc) [Ev.edit 0 "a", Ev.fire 1000 0]

/-- The concrete in-flight write of `c4wState`. -/
def c4wFlight : Flight := { seq := 0, startedAt := 1000, content := "a" }

/-- Witness instantiating the C4 theorem: a session with the write of
`a` in flight, failing at 1200 ms. -/
theorem c4_failed_write_retains_content_witness :
    c4wState.inflight = [c4wFlight] ∧
    List.Pairwise (· < ·) (fireSeqs [Ev.edit 0 "a", Ev.fire 1000 0]) ∧
    ((step c4wState (Ev.complete 1200 false)).toasts = c4wState.toasts ++ [saveErrorToast] ∧
     (step c4wState (Ev.complete 1200 false)).editorContent = c4wState.editorContent ∧
     (step c4wState (Ev.complete 1200 false)).doc = c4wState.doc ∧
     (step c4wState (Ev.complete 1200 false)).armed = c4wState.armed ∧
     List.Pairwise (· < ·)
       ((run (initSession demoDoc) [Ev.edit 0 "a", Ev.fire 1000 0]).begun.map Flight.seq)) := by
  refine ⟨by decide, by decide, ?_⟩
  exact c4_failed_write_retains_content c4wState 1200 c4wFlight [] (by decide) demoDoc
    [Ev.edit 0 "a", Ev.fire 1000 0] (by decide)

/-- Frame fact carried through the induction for C8: the mirrored store
record always keeps the identity fields (`id`, `title`,
`owner_user_id`, `created_at`) of the loaded document, only `content`
and `updated_at` ever being rewritten. -/
def FrameInv (d : DocRec) (s : EditorState) : Prop :=
  ∃ c u, s.doc = some { d with content := c, updated_at := u }

theorem frameInv_step (d : DocRec) (s : EditorState) (e : Ev) (h : FrameInv d s) :
    FrameInv d (step s e) := by
  obtain ⟨c, u, hdoc⟩ := h
  cases e with
  | edit t c' => exact ⟨c, u, hdoc⟩
  | fire t j =>
      unfold FrameInv
      simp only [step]
      split
      · exact ⟨c, u, hdoc⟩
      · split
        · exact ⟨c, u, hdoc⟩
        · exact ⟨c, u, hdoc⟩
  | complete t ok =>
      unfold FrameInv
      simp only [step]
      rcases hif : s.inflight with _ | ⟨f, rest⟩
      · exact ⟨c, u, hdoc⟩
      · cases ok with
        | false => exact ⟨c, u, hdoc⟩
        | true =>
            exact ⟨f.content, f.startedAt, by simp [hdoc]⟩

theorem frameInv_run (d : DocRec) (s : EditorState) (es : List Ev) (h : FrameInv d s) :
    FrameInv d (run s es) := by
  induction es generalizing s with
  | nil => simpa [run] using h
  | cons e es ih => exact ih (step s e) (frameInv_step d s e h)

/-- A write beginning with content staler than the editor's: two edits
in one debounce window, with the first edit's timeout firing after the
second edit. -/
def staleWriteTrace : List Ev :=
  [Ev.edit 0 "p", Ev.edit 500 "pq", Ev.fire 1000 0, Ev.complete 1100 true]

/-- C8 counterexample: the successful persisted write of this run sends
`p`, the snapshot captured when the edit occurred, although at the
moment the write began (1000 ms) the latest content was already `pq`
(and still is when the session quiesces): writes do not send the latest
snapshot captured at write start. -/
theorem c8_write_sends_scheduling_snapshot_not_latest :
    (run (initSession demoDoc) staleWriteTrace).completedOk.map Flight.content = ["p"] ∧
    (run (initSession demoDoc) staleWriteTrace).editorContent = "pq" ∧
    ("p" : String) ≠ "pq" := by
  refine ⟨rfl, rfl, ?_⟩
  decide

/-- C8 (amended): every successful persisted write rewrites `updated_at`
to the instant the write began and stores the content snapshot that was
captured by the edit event which scheduled the write (possibly staler
than the editor content at write start), leaving `id`, `title`,
`owner_user_id` and `created_at` unchanged; an edit arms a timeout
carrying exactly its content, and a write started by a firing timeout
sends exactly that timeout's content through `content || ''`. -/
theorem c8_successful_write_fields (d : DocRec) (es : List Ev) (t : Nat)
    (f : Flight) (rest : List Flight)
    (hif : (run (initSession d) es).inflight = f :: rest) :
    (step (run (initSession d) es) (Ev.complete t true)).doc =
      some { d with content := f.content, updated_at := f.startedAt } ∧
    (∀ (s' : EditorState) (t' : Nat) (c' : String),
      (step s' (Ev.edit t' c')).armed =
        s'.armed ++ [{ seq := s'.nextSeq, fireAt := t' + 1000, content := c' }]) ∧
    (∀ (s' : EditorState) (t' j : Nat) (tm : Timer),
      s'.armed.find? (fun x => x.seq == j) = some tm →
      s'.doc.isSome = true → s'.saving = false →
      (step s' (Ev.fire t' j)).inflight =
        s'.inflight ++ [{ seq := tm.seq, startedAt := t', content := jsOrEmpty (some tm.content) }]) := by
  refine ⟨?_, ?_, ?_⟩
  · obtain ⟨c, u, hdoc⟩ :=
      frameInv_run d (initSession d) es ⟨d.content, d.updated_at, rfl⟩
    simp only [step]
    rw [hif]
    simp [hdoc]
  · intro s' t' c'
    rfl
  · intro s' t' j tm hf hd hs
    simp only [step]
    rw [hf]
    simp [hd, hs]

/-- Witness instantiating the amended C8 theorem on a concrete session
with the write of `p` in flight, completing successfully at 1100 ms. -/
theorem c8_successful_write_fields_witness :
    (run (initSession demoDoc) [Ev.edit 0 "p", Ev.fire 1000 0]).inflight =
      [{ seq := 0, startedAt := 1000, content := "p" }] ∧
    (step (run (initSession demoDoc) [Ev.edit 0 "p", Ev.fire 1000 0])
        (Ev.complete 1100 true)).doc =
      some { demoDoc with content := "p", updated_at := 1000 } ∧
    (step (initSession demoDoc) (Ev.edit 0 "p")).armed =
      (initSession demoDoc).armed ++ [{ seq := 0, fireAt := 1000, content := "p" }] := by
  refine ⟨by decide, ?_, ?_⟩
  · exact (c8_successful_write_fields demoDoc [Ev.edit 0 "p", Ev.fire 1000 0] 1100
      { seq := 0, startedAt := 1000, content := "p" } [] (by decide)).1
  · exact (c8_successful_write_fields demoDoc [Ev.edit 0 "p", Ev.fire 1000 0] 1100
      { seq := 0, startedAt := 1000, content := "p" } [] (by decide)).2.1
      (initSession demoDoc) 0 "p"

/-- C9: the `content || ''` coercion of `saveDocument` maps an absent
argument and the empty string both to the empty string, and a timeout
carrying empty content that fires outside a write still begins a
persisted write storing the empty string: empty content is not
special-cased into a no-op. -/
theorem c9_empty_content_persisted (s : EditorState) (t j : Nat) (tm : Timer)
    (hf : s.armed.find? (fun x => x.seq == j) = some tm)
    (hc : tm.content = "")
    (hd : s.doc.isSome = true) (hs : s.saving = false) :
    jsOrEmpty none = "" ∧ jsOrEmpty (some "") = "" ∧
    (step s (Ev.fire t j)).begun =
      s.begun ++ [{ seq := tm.seq, startedAt := t, content := "" }] ∧
    (step s (Ev.fire t j)).saving = true := by
  refine ⟨rfl, rfl, ?_, ?_⟩ <;>
  · simp only [step]
    rw [hf]
    simp [hd, hs, hc, jsOrEmpty]

/-- Witness instantiating the C9 theorem: an empty edit at 0 ms whose
timeout fires at 1000 ms begins a write of the empty string. -/
theorem c9_empty_content_persisted_witness :
    (run (initSession demoDoc) [Ev.edit 0 ""]).armed.find? (fun x => x.seq == 0) =
      some { seq := 0, fireAt := 1000, content := "" } ∧
    (step (run (initSession demoDoc) [Ev.edit 0 ""]) (Ev.fire 1000 0)).begun =
      (run (initSession demoDoc) [Ev.edit 0 ""]).begun ++
        [{ seq := 0, startedAt := 1000, content := "" }] ∧
    (step (run (initSession demoDoc) [Ev.edit 0 ""]) (Ev.fire 1000 0)).saving = true := by
  refine ⟨by decide, ?_, ?_⟩
  · exact (c9_empty_content_persisted (run (initSession demoDoc) [Ev.edit 0 ""]) 1000 0
      { seq := 0, fireAt := 1000, content := "" } (by decide) rfl (by decide) (by decide)).2.2.1
  · exact (c9_empty_content_persisted (run (initSession demoDoc) [Ev.edit 0 ""]) 1000 0
      { seq := 0, fireAt := 1000, content := "" } (by decide) rfl (by decide) (by decide)).2.2.2

/-- Result of the initial `blink.db.documents.list({ where: { id }, limit: 1 })`
call of `loadDocument`: the call either throws or returns a list of
matching records. -/
inductive LoadResult where
  | failure
  | success (docs : List DocRec)
deriving Repr, DecidableEq

/-- Observable outcome of `loadDocument`: the document state that was
set, the toasts shown, and whether `onBack()` was called. -/
structure LoadOutcome where
  doc : Option DocRec
  toasts : List Toast
  navigatedBack : Bool
deriving Repr, DecidableEq

/-- The `loadDocument` callback of `DocumentEditor`: a thrown fetch
shows one destructive toast and navigates back; an empty result list
shows one destructive toast and navigates back before `setDocument`; a
non-empty result installs its first record. -/
def loadDocument : LoadResult → LoadOutcome
  | .failure =>
      { doc := none
        toasts := [{ title := "Error", description := "Failed to load document", destructive := true }]
        navigatedBack := true }
  | .success docs =>
      match docs with
      | [] =>
          { doc := none
            toasts := [{ title := "Error", description := "Document not found", destructive := true }]
            navigatedBack := true }
      | d :: _ =>
          { doc := some d, toasts := [], navigatedBack := false }

/-- Session state of `DocumentEditor` after `loadDocument` ran: the
document state is whatever the load installed, nothing is armed or in
flight, and the load's toasts have been shown. -/
def sessionAfterLoad (o : LoadOutcome) : EditorState :=
  { doc := o.doc
    saving := false
    editorContent := jsOrEmpty (o.doc.map DocRec.content)
    nextSeq := 0
    armed := []
    inflight := []
    begun := []
    completedOk := []
    toasts := o.toasts }

/-- In a session whose document never loaded, no write ever begins or
completes: the timeout callback and `saveDocument` both require a loaded
document, and nothing can enter flight. -/
theorem docless_no_write (es : List Ev) (s : EditorState)
    (hd : s.doc = none) (hi : s.inflight = [])
    (hb : s.begun = []) (hc : s.completedOk = []) :
    (run s es).doc = none ∧ (run s es).begun = [] ∧ (run s es).completedOk = [] := by
  induction es generalizing s with
  | nil => exact ⟨hd, hb, hc⟩
  | cons e r ih =>
      have hrun : run s (e :: r) = run (step s e) r := rfl
      rw [hrun]
      cases e with
      | edit t c => exact ih _ hd hi hb hc
      | fire t j =>
          apply ih
          all_goals
            simp only [step]
            split
          · exact hd
          · rw [if_neg (by simp [hd])]; exact hd
          · exact hi
          · rw [if_neg (by simp [hd])]; exact hi
          · exact hb
          · rw [if_neg (by simp [hd])]; exact hb
          · exact hc
          · rw [if_neg (by simp [hd])]; exact hc
      | complete t ok =>
          apply ih
          all_goals
            simp only [step]
            rw [hi]
          · exact hd
          · exact hi
          · exact hb
          · exact hc

/-- C6: when the initial fetch of the document throws, or returns no
matching record, the session does not start: exactly one destructive
toast is shown, `onBack()` returns the user to the list view, no
document state is installed, and no write for that document is ever
issued afterwards. -/
theorem c6_load_failure_terminal (r : LoadResult)
    (h : r = LoadResult.failure ∨ r = LoadResult.success []) (es : List Ev) :
    (loadDocument r).doc = none ∧
    (loadDocument r).navigatedBack = true ∧
    (loadDocument r).toasts.length = 1 ∧
    (∀ x ∈ (loadDocument r).toasts, x.destructive = true) ∧
    (run (sessionAfterLoad (loadDocument r)) es).begun = [] ∧
    (run (sessionAfterLoad (loadDocument r)) es).completedOk = [] := by
  have hload : (loadDocument r).doc = none ∧ (loadDocument r).navigatedBack = true ∧
      (loadDocument r).toasts.length = 1 ∧
      ∀ x ∈ (loadDocument r).toasts, x.destructive = true := by
    rcases h with h | h <;> subst h <;> refine ⟨rfl, rfl, rfl, ?_⟩ <;> decide
  obtain ⟨hdoc, hnav, hlen, hdes⟩ := hload
  have hnw := docless_no_write es (sessionAfterLoad (loadDocument r))
    (by simp [sessionAfterLoad, hdoc]) rfl rfl rfl
  exact ⟨hdoc, hnav, hlen, hdes, hnw.2.1, hnw.2.2⟩

/-- Witness instantiating the C6 theorem: a failed fetch followed by an
edit whose timeout fires. -/
theorem c6_load_failure_terminal_witness :
    (LoadResult.failure = LoadResult.failure ∨
      LoadResult.failure = LoadResult.success []) ∧
    (loadDocument LoadResult.failure).doc = none ∧
    (loadDocument LoadResult.failure).navigatedBack = true ∧
    (loadDocument LoadResult.failure).toasts.length = 1 ∧
    (run (sessionAfterLoad (loadDocument LoadResult.failure))
      [Ev.edit 0 "zz", Ev.fire 1000 0]).begun = [] := by
  have h := c6_load_failure_terminal LoadResult.failure (Or.inl rfl)
    [Ev.edit 0 "zz", Ev.fire 1000 0]
  exact ⟨Or.inl rfl, h.1, h.2.1, h.2.2.1, h.2.2.2.2.1⟩

/-- The whitespace class of JavaScript `String.prototype.trim`, the
ECMAScript WhiteSpace and LineTerminator productions: tab, line feed,
vertical tab, form feed, carriage return, space, no-break space
(U+00A0), the Ogham space mark (U+1680), the Unicode space separators
U+2000 through U+200A, the line and paragraph separators U+2028 and
U+2029, the narrow no-break space (U+202F), the medium mathematical
space (U+205F), the ideographic space (U+3000), and the zero width
no-break space (U+FEFF). -/
def jsWhitespace (c : Char) : Bool :=
  c == ' ' || c == '\t' || c == '\n' || c == '\r' || c == '\x0b' || c == '\x0c' ||
  c == '\u00A0' || c == '\u1680' ||
  c == '\u2000' || c == '\u2001' || c == '\u2002' || c == '\u2003' ||
  c == '\u2004' || c == '\u2005' || c == '\u2006' || c == '\u2007' ||
  c == '\u2008' || c == '\u2009' || c == '\u200A' ||
  c == '\u2028' || c == '\u2029' ||
  c == '\u202F' || c == '\u205F' || c == '\u3000' || c == '\uFEFF'

/-- JavaScript `String.prototype.trim`: strips leading and trailing
whitespace. -/
def jsTrim (s : String) : String :=
  String.mk (((s.data.dropWhile jsWhitespace).reverse.dropWhile jsWhitespace).reverse)

/-- JavaScript `String.prototype.toLowerCase` restricted to the ASCII
range used by the file-name comparison. -/
def jsToLower (s : String) : String :=
  String.mk (s.data.map Char.toLower)

/-- JavaScript `String.prototype.endsWith`. -/
def jsEndsWith (s suf : String) : Bool :=
  s.data.reverse.take suf.data.length == suf.data.reverse

/-- Helper for splitting on the newline character; the accumulator holds
the current line reversed. -/
def splitNlAux : List Char → List Char → List String
  | [], acc => [String.mk acc.reverse]
  | c :: rest, acc =>
      if c = '\n' then String.mk acc.reverse :: splitNlAux rest []
      else splitNlAux rest (c :: acc)

/-- JavaScript `content.split('\n')`: the list of lines, where an empty
string yields the single empty line, matching the JavaScript result. -/
def jsSplitNl (s : String) : List String :=
  splitNlAux s.data []

/-- Result of `mammoth.convertToHtml` on the supplied file: the HTML
value with conversion warnings, or a thrown parse failure. -/
inductive ImportParse where
  | parsed (html : String) (warnings : List String)
  | parseError
deriving Repr, DecidableEq

/-- Observable outcome of `handleFileImport`: the record passed to
`blink.db.documents.create` if any (the only store mutation on this
path), the toasts shown, and the document navigated to. -/
structure ImportOutcome where
  created : Option DocRec
  toasts : List Toast
  navigatedTo : Option String
deriving Repr, DecidableEq

/-- The title extraction of `handleFileImport`: the regex
`/\.docx?$/i` strips one trailing `.docx` or `.doc` extension,
case-insensitively, and an empty remainder falls back to
`Imported Document`. -/
def importTitle (name : String) : String :=
  let stripped :=
    if jsEndsWith (jsToLower name) ".docx" then name.dropRight 5
    else if jsEndsWith (jsToLower name) ".doc" then name.dropRight 4
    else name
  if stripped = "" then "Imported Document" else stripped

/-- The `handleFileImport` callback of `DocumentList` for a supplied
file: a name not ending in `.docx` (case-insensitively) aborts with one
destructive toast before anything else; a parse failure aborts with one
destructive toast before the store is touched; otherwise one record is
created from the converted HTML and navigated to. -/
def handleFileImport (name userId : String) (now : Nat)
    (parse : ImportParse) : ImportOutcome :=
  if !(jsEndsWith (jsToLower name) ".docx") then
    { created := none
      toasts := [{ title := "Error", description := "Please select a valid DOCX file", destructive := true }]
      navigatedTo := none }
  else
    match parse with
    | .parseError =>
        { created := none
          toasts := [{ title := "Error", description := "Failed to import DOCX file. Please try again.", destructive := true }]
          navigatedTo := none }
    | .parsed html _ =>
        let d : DocRec :=
          { id := "doc_" ++ toString now
            title := importTitle name
            content := html
            owner_user_id := userId
            created_at := now
            updated_at := now }
        { created := some d
          toasts := [{ title := "Success",
                       description := "\"" ++ importTitle name ++ "\" has been imported successfully",
                       destructive := false }]
          navigatedTo := some d.id }

/-- C7: an import whose file name does not end in `.docx`
(case-insensitively), or whose conversion fails, is aborted before any
content store mutation: nothing is created, no navigation happens, and
exactly one destructive toast is shown. -/
theorem c7_import_rejected_before_mutation (name userId : String) (now : Nat)
    (parse : ImportParse)
    (h : jsEndsWith (jsToLower name) ".docx" = false ∨ parse = ImportParse.parseError) :
    (handleFileImport name userId now parse).created = none ∧
    (handleFileImport name userId now parse).navigatedTo = none ∧
    (handleFileImport name userId now parse).toasts.length = 1 ∧
    ∀ x ∈ (handleFileImport name userId now parse).toasts, x.destructive = true := by
  rcases h with h | h
  · refine ⟨?_, ?_, ?_, ?_⟩ <;> simp [handleFileImport, h]
  · subst h
    by_cases hx : jsEndsWith (jsToLower name) ".docx" = true <;>
      refine ⟨?_, ?_, ?_, ?_⟩ <;> simp [handleFileImport, hx]

/-- Witness instantiating the C7 theorem: importing `notes.txt` and a
DOCX file that fails to parse. -/
theorem c7_import_rejected_before_mutation_witness :
    (jsEndsWith (jsToLower "notes.txt") ".docx" = false ∨
      ImportParse.parseError = ImportParse.parseError) ∧
    (handleFileImport "notes.txt" "user_1" 7 (ImportParse.parsed "<p>x</p>" [])).created = none ∧
    (handleFileImport "notes.txt" "user_1" 7 (ImportParse.parsed "<p>x</p>" [])).toasts.length = 1 ∧
    (handleFileImport "Report.docx" "user_1" 7 ImportParse.parseError).created = none := by
  have h1 := c7_import_rejected_before_mutation "notes.txt" "user_1" 7
    (ImportParse.parsed "<p>x</p>" []) (Or.inl (by decide))
  have h2 := c7_import_rejected_before_mutation "Report.docx" "user_1" 7
    ImportParse.parseError (Or.inr rfl)
  exact ⟨Or.inl (by decide), h1.1, h1.2.2.1, h2.1⟩

/-- The paragraph extraction of `exportToDocx`: the plain text is split
on newlines, lines whose JavaScript `trim()` is empty (falsy) are
dropped, each remaining line becomes one paragraph in order, and when no
paragraph remains a single `Empty document` paragraph is produced. -/
def exportParagraphs (text : String) : List String :=
  let paragraphs := (jsSplitNl text).filter (fun p => jsTrim p != "")
  if paragraphs.length > 0 then paragraphs else ["Empty document"]

/-- C10: exporting a document whose plain text has no line with
non-whitespace content yields exactly the one paragraph
`Empty document`; otherwise the whitespace-only lines are dropped and
the remaining lines become the paragraphs, in their original order (the
paragraph list embeds into the split as a sublist, and membership is
exactly non-blank membership in the split). -/
theorem c10_export_paragraphs (text : String) :
    ((∀ l ∈ jsSplitNl text, jsTrim l = "") →
      exportParagraphs text = ["Empty document"]) ∧
    ((∃ l ∈ jsSplitNl text, jsTrim l ≠ "") →
      exportParagraphs text = (jsSplitNl text).filter (fun p => jsTrim p != "") ∧
      List.Sublist (exportParagraphs text) (jsSplitNl text) ∧
      ∀ l, l ∈ exportParagraphs text ↔ (l ∈ jsSplitNl text ∧ jsTrim l ≠ "")) := by
  constructor
  · intro hall
    have hfil : (jsSplitNl text).filter (fun p => jsTrim p != "") = [] := by
      rw [List.filter_eq_nil_iff]
      intro a ha
      simp [hall a ha]
    simp [exportParagraphs, hfil]
  · intro ⟨l, hl, hlt⟩
    have hmem : l ∈ (jsSplitNl text).filter (fun p => jsTrim p != "") :=
      List.mem_filter.mpr ⟨hl, by simpa using hlt⟩
    have hpos : 0 < ((jsSplitNl text).filter (fun p => jsTrim p != "")).length :=
      List.length_pos.mpr (List.ne_nil_of_mem hmem)
    have hexp : exportParagraphs text = (jsSplitNl text).filter (fun p => jsTrim p != "") := by
      simp only [exportParagraphs]
      rw [if_pos hpos]
    refine ⟨hexp, ?_, ?_⟩
    · rw [hexp]; exact List.filter_sublist _
    · intro a
      rw [hexp, List.mem_filter]
      simp

/-- Witness instantiating the C10 theorem on the text `a`, blank line,
`b`: the blank line is dropped and the remaining lines export in
order. -/
theorem c10_export_paragraphs_witness :
    ("a" ∈ jsSplitNl "a\n \nb" ∧ jsTrim "a" ≠ "") ∧
    exportParagraphs "a\n \nb" = ["a", "b"] := by
  have h := (c10_export_paragraphs "a\n \nb").2 ⟨"a", by decide, by decide⟩
  refine ⟨⟨by decide, by decide⟩, ?_⟩
  rw [h.1]
  decide

end DocxClone
